import Mathlib

set_option maxRecDepth 100000
set_option maxHeartbeats 1000000

/-!
Shallow embedding of the NGO-info-scraper extraction pipeline
(src/versions/v3/script.py, with the v1 year extractor for comparison).
External collaborators (network fetch, DOM queries, the url library,
pdf text extraction, the selector store file) are modelled as oracle
fields of an environment or of the parsed-page structure, exactly as
the specification declares them to be external interfaces.  All string
processing that the scripts perform themselves (regular expressions,
truthiness, lowercasing, substring tests) is implemented concretely.
-/

/-- Python truthiness of a string: non-empty strings are truthy. -/
def truthyS (s : String) : Bool := !(s == "")

/-- Python truthiness of an optional string field (None or a string). -/
def truthyOS : Option String → Bool
  | none => false
  | some s => truthyS s

/-- Collapse a Python value that is None or a falsy string to none,
mirroring an `if custom:` test on an optional selector string. -/
def pyOpt (o : Option String) : Option String :=
  match o with
  | some s => if s == "" then none else some s
  | none => none

/-- Lowercase a string character by character (ASCII lower, as
Python str.lower behaves on the ASCII inputs involved here). -/
def lowerStr (s : String) : String := String.mk (s.toList.map Char.toLower)

/-- Python str.strip whitespace class. -/
def isPyWsp (c : Char) : Bool :=
  c == ' ' || c == '\t' || c == '\n' || c == '\r' || c == '\x0b' || c == '\x0c'

/-- Python str.strip: remove leading and trailing whitespace. -/
def stripStr (s : String) : String :=
  String.mk (((s.toList.dropWhile isPyWsp).reverse.dropWhile isPyWsp).reverse)

/-- Is the needle list a contiguous infix of the haystack list
(Python substring containment, the `k in s` test). -/
def infList (n : List Char) : List Char → Bool
  | [] => n.isEmpty
  | c :: t => List.isPrefixOf n (c :: t) || infList n t

/-- Python substring containment on strings. -/
def containsSub (needle hay : String) : Bool := infList needle.toList hay.toList

/-- First-occurrence deduplication.  Models the list(set(..)) step of
the link finder; CPython set iteration order is modelled as insertion
order, which is all the development relies on. -/
def dedupAux (seen : List String) : List String → List String
  | [] => []
  | x :: xs => if seen.contains x then dedupAux seen xs else x :: dedupAux (x :: seen) xs

/-- Deduplicate keeping first occurrences. -/
def dedupL (l : List String) : List String := dedupAux [] l

/-- Regular-expression abstract syntax covering the constructs used by
the scripts: character classes, concatenation, alternation, greedy
option, greedy and lazy star, word boundary, and numbered capture
groups. -/
inductive RE where
  | eps : RE
  | cls : (Char → Bool) → RE
  | reSeq : RE → RE → RE
  | reAlt : RE → RE → RE
  | reOpt : RE → RE
  | reStar : Bool → RE → RE
  | wordB : RE
  | grp : Nat → RE → RE

/-- Word character for the \b boundary, Python re semantics on ASCII. -/
def isWordChar (c : Char) : Bool := c.isAlphanum || c == '_'

/-- Word-character test on the character before the current position. -/
def isWordO : Option Char → Bool
  | none => false
  | some c => isWordChar c

/-- Word-character test on the head of the remaining input. -/
def isWordHead : List Char → Bool
  | [] => false
  | c :: _ => isWordChar c

/-- Backtracking matcher in continuation-passing style, fuel-bounded.
Alternatives are tried in source order, greedy operators longest
first and lazy operators shortest first, exactly as Python re
backtracks.  The continuation receives the previous character, the
remaining input and the captures accumulated so far. -/
def mtch : Nat → RE → Option Char → List Char → List (Nat × String) →
    (Option Char → List Char → List (Nat × String) → Option (List (Nat × String))) →
    Option (List (Nat × String))
  | 0, _, _, _, _, _ => none
  | Nat.succ _, RE.eps, prev, s, caps, k => k prev s caps
  | Nat.succ _, RE.cls f, _, s, caps, k =>
    match s with
    | [] => none
    | c :: t => if f c then k (some c) t caps else none
  | Nat.succ fuel, RE.reSeq a b, prev, s, caps, k =>
    mtch fuel a prev s caps (fun p t cs => mtch fuel b p t cs k)
  | Nat.succ fuel, RE.reAlt a b, prev, s, caps, k =>
    (mtch fuel a prev s caps k).orElse (fun _ => mtch fuel b prev s caps k)
  | Nat.succ fuel, RE.reOpt a, prev, s, caps, k =>
    (mtch fuel a prev s caps k).orElse (fun _ => k prev s caps)
  | Nat.succ fuel, RE.reStar lazyQ a, prev, s, caps, k =>
    if lazyQ then
      (k prev s caps).orElse (fun _ =>
        mtch fuel a prev s caps (fun p t cs => mtch fuel (RE.reStar lazyQ a) p t cs k))
    else
      (mtch fuel a prev s caps (fun p t cs =>
        mtch fuel (RE.reStar lazyQ a) p t cs k)).orElse (fun _ => k prev s caps)
  | Nat.succ _, RE.wordB, prev, s, caps, k =>
    if isWordO prev != isWordHead s then k prev s caps else none
  | Nat.succ fuel, RE.grp n a, prev, s, caps, k =>
    mtch fuel a prev s caps (fun p t cs =>
      k p t ((n, String.mk (s.take (s.length - t.length))) :: cs))

/-- Attempt a match of the whole pattern (wrapped as group 0) at a
fixed start position of the text. -/
def searchAt (r : RE) (full : List Char) (i : Nat) : Option (List (Nat × String)) :=
  mtch (4 * full.length + 200) (RE.grp 0 r) (full.take i).getLast? (full.drop i) []
    (fun _ _ caps => some caps)

/-- Try successive start positions (re.search leftmost semantics). -/
def searchFrom (r : RE) (full : List Char) : Nat → Nat → Option (List (Nat × String))
  | 0, _ => none
  | Nat.succ n, i => (searchAt r full i).orElse (fun _ => searchFrom r full n (i + 1))

/-- re.search over a string: leftmost match, returning the captures. -/
def reSearch (r : RE) (text : String) : Option (List (Nat × String)) :=
  searchFrom r text.toList (text.toList.length + 1) 0

/-- Text of capture group n (empty if absent, which never happens for
group 0 of a successful search). -/
def capGroup (caps : List (Nat × String)) (n : Nat) : String :=
  match caps.lookup n with
  | some s => s
  | none => ""

/-- Python m.group(n) as an optional value: None when the group did
not participate in the match. -/
def capGroupOpt (caps : List (Nat × String)) (n : Nat) : Option String := caps.lookup n

/-- Single case-sensitive character. -/
def chC (c : Char) : RE := RE.cls (fun x => x == c)

/-- Single case-insensitive character (re.I). -/
def chI (c : Char) : RE := RE.cls (fun x => x.toLower == c.toLower)

/-- Case-sensitive literal string. -/
def litS (s : String) : RE := s.toList.foldr (fun c r => RE.reSeq (chC c) r) RE.eps

/-- Case-insensitive literal string. -/
def litI (s : String) : RE := s.toList.foldr (fun c r => RE.reSeq (chI c) r) RE.eps

/-- The \d class. -/
def digitRE : RE := RE.cls Char.isDigit

/-- The \s class. -/
def wspRE : RE := RE.cls isPyWsp

/-- n-fold repetition of a pattern. -/
def repRE : Nat → RE → RE
  | 0, _ => RE.eps
  | Nat.succ n, r => RE.reSeq r (repRE n r)

/-- One-or-more, greedy. -/
def plusRE (r : RE) : RE := RE.reSeq r (RE.reStar false r)

/-- The token \b(19|20)\d{2}\b shared by the v3 year patterns; group 1
is the (19|20) alternation, exactly as in the source. -/
def patYearTok : RE :=
  RE.reSeq RE.wordB (RE.reSeq (RE.grp 1 (RE.reAlt (litS "19") (litS "20")))
    (RE.reSeq digitRE (RE.reSeq digitRE RE.wordB)))

/-- v3 year pattern 1 (re.I):
(?:founded|established|since)\s*(?:in)?\s*\b(19|20)\d{2}\b -/
def patYear1 : RE :=
  RE.reSeq (RE.reAlt (litI "founded") (RE.reAlt (litI "established") (litI "since")))
    (RE.reSeq (RE.reStar false wspRE)
      (RE.reSeq (RE.reOpt (litI "in")) (RE.reSeq (RE.reStar false wspRE) patYearTok)))

/-- v3 year pattern 2 (re.I): \b(19|20)\d{2}\b.*?(?:founded|established)
with a lazy dot-star that does not cross newlines. -/
def patYear2 : RE :=
  RE.reSeq patYearTok
    (RE.reSeq (RE.reStar true (RE.cls (fun c => !(c == '\n'))))
      (RE.reAlt (litI "founded") (litI "established")))

/-- Email pattern of extract_contact_info: [\w\.-]+@[\w\.-]+\.\w+ -/
def patEmail : RE :=
  let wdc := RE.cls (fun c => isWordChar c || c == '.' || c == '-')
  RE.reSeq (plusRE wdc) (RE.reSeq (chC '@')
    (RE.reSeq (plusRE wdc) (RE.reSeq (chC '.') (plusRE (RE.cls isWordChar)))))

/-- The [\s\-] class of the phone patterns. -/
def sdRE : RE := RE.cls (fun c => isPyWsp c || c == '-')

/-- Common tail \+?91[\s\-]?\d{10} of phone patterns 5 and 6. -/
def patPhoneTail : RE :=
  RE.reSeq (RE.reOpt (chC '+')) (RE.reSeq (litS "91")
    (RE.reSeq (RE.reOpt sdRE) (repRE 10 digitRE)))

/-- Phone pattern \+91[\s\-]?\d{10}. -/
def patPhone1 : RE :=
  RE.reSeq (chC '+') (RE.reSeq (litS "91") (RE.reSeq (RE.reOpt sdRE) (repRE 10 digitRE)))

/-- Phone pattern 91[\s\-]?\d{10}. -/
def patPhone2 : RE :=
  RE.reSeq (litS "91") (RE.reSeq (RE.reOpt sdRE) (repRE 10 digitRE))

/-- \d{2,3}[\s\-]?\d{7,8} encoded with greedy optionals, which matches
Python's longest-first preference for counted repetition. -/
def patPhoneCore : RE :=
  RE.reSeq digitRE (RE.reSeq digitRE (RE.reSeq (RE.reOpt digitRE)
    (RE.reSeq (RE.reOpt sdRE) (RE.reSeq (repRE 7 digitRE) (RE.reOpt digitRE)))))

/-- Phone pattern 0\d{2,3}[\s\-]?\d{7,8}. -/
def patPhone3 : RE := RE.reSeq (chC '0') patPhoneCore

/-- Phone pattern \d{2,3}[\s\-]?\d{7,8}. -/
def patPhone4 : RE := patPhoneCore

/-- Phone pattern P[\s:]*\+?91[\s\-]?\d{10} (case sensitive). -/
def patPhone5 : RE :=
  RE.reSeq (chC 'P') (RE.reSeq (RE.reStar false (RE.cls (fun c => isPyWsp c || c == ':')))
    patPhoneTail)

/-- Phone pattern Contact[\s:]*\+?91[\s\-]?\d{10} (case sensitive). -/
def patPhone6 : RE :=
  RE.reSeq (litS "Contact")
    (RE.reSeq (RE.reStar false (RE.cls (fun c => isPyWsp c || c == ':'))) patPhoneTail)

/-- The six Indian phone patterns in their fixed priority order. -/
def phonePatterns : List RE :=
  [patPhone1, patPhone2, patPhone3, patPhone4, patPhone5, patPhone6]

/-- re.sub applied to a matched phone: strip every character that is
not a digit and not a plus. -/
def pyPhoneStrip (s : String) : String :=
  String.mk (s.toList.filter (fun c => c.isDigit || c == '+'))

/-- The sentinel phone value emitted when a form control is detected. -/
def phoneSentinel : String := "not found automatically, check manually"

/-- PDF year pattern (re.I): (?:founded|established|since)\s*(?:in)?\s*(\d{4});
here group 1 really is the full four-digit year. -/
def patPdfYear : RE :=
  RE.reSeq (RE.reAlt (litI "founded") (RE.reAlt (litI "established") (litI "since")))
    (RE.reSeq (RE.reStar false wspRE)
      (RE.reSeq (RE.reOpt (litI "in"))
        (RE.reSeq (RE.reStar false wspRE) (RE.grp 1 (repRE 4 digitRE)))))

/-- A DOM element, reduced to the two text renderings the scripts use:
get_text() and get_text(strip=True). -/
structure Elem where
  getText : String
  getTextStrip : String
deriving DecidableEq

/-- One parsed JSON-LD item.  areaServed is modelled, after the
source's normalisation of a single object to a one-element list, as
the list of the name attributes of the served areas. -/
structure LdItem where
  atType : Option String := none
  foundingDate : Option String := none
  ldName : Option String := none
  areaServed : Option (List (Option String)) := none
deriving DecidableEq

/-- The dictionary built by extract_from_json_ld: a field is some v
exactly when the corresponding key has been written. -/
structure LdData where
  year_founded : Option String := none
  ngo_name : Option String := none
  operational_areas : Option (List String) := none
deriving DecidableEq

/-- A parsed page, exposing exactly the DOM-collaborator operations
the v3 script invokes on it.  jsonLdScripts lists the ld+json script
blocks, none standing for a block whose json.loads raises (it is
skipped).  kwList gives, per keyword, the li texts of the first
list located by the find / find_parent / find_next chain for that
keyword, or none when any stage of the chain fails. -/
structure Soup where
  getText : String
  titleString : Option String
  selectOne : String → Option Elem
  selectAll : String → List Elem
  links : List (String × String)
  jsonLdScripts : List (Option (List LdItem))
  kwList : String → Option (List String)
  hasSelectElem : Bool
  textNodes : List String

/-- The contact dictionary; a key is present exactly when the field is
some value (the script only ever stores non-empty strings). -/
structure Contact where
  email : Option String := none
  phone : Option String := none
deriving DecidableEq

/-- Python dict.update on a contact dictionary: keys present in the
new dictionary overwrite, keys absent from it are kept. -/
def updateC (c nc : Contact) : Contact :=
  { email := nc.email.orElse (fun _ => c.email),
    phone := nc.phone.orElse (fun _ => c.phone) }

/-- Python truthiness of the contact_info slot: None and the empty
dictionary are falsy. -/
def truthyC : Option Contact → Bool
  | none => false
  | some c => c.email.isSome || c.phone.isSome

/-- The record assembled by parse_ngo. -/
structure Data where
  ngo_name : Option String
  year_founded : Option String
  fields_of_work : List String
  operational_areas : List String
  contact_info : Option Contact
  website_url : String
deriving DecidableEq

/-- Outcome of one parse_ngo run: seed fetch failed (the script
returns None), an uncaught exception, or a returned record. -/
inductive PRes where
  | noPage : PRes
  | crashed : PRes
  | record : Data → PRes
deriving DecidableEq

/-- Outcome of downloading a linked pdf: a raised network exception,
or an HTTP status together with the document. -/
inductive PdfDoc where
  | parseExn : PdfDoc
  | pages : List (Option String) → PdfDoc

inductive PdfFetch where
  | exn : PdfFetch
  | status : Nat → PdfDoc → PdfFetch

/-- The run environment: the external collaborators of the pipeline.
fetch is the page-fetch collaborator (None models any failure),
fetchPdf the document download, urljoin and netloc the url library,
customs the selector override store already keyed by domain then
field. -/
structure Env where
  fetch : String → Option Soup
  fetchPdf : String → PdfFetch
  urljoin : String → String → String
  netloc : String → String
  customs : String → String → Option String

/-- One entry of the areaServed comprehension: keep the area name only
when present and truthy. -/
def ldAreaName : Option String → Option String
  | some n => if truthyS n then some n else none
  | none => none

/-- extract_from_json_ld, processing of one recognised item: later
writes win over earlier ones for the same key (last-write-wins). -/
def ldApplyItem (d : LdData) (it : LdItem) : LdData :=
  if it.atType == some "Organization" || it.atType == some "NGO" then
    let d1 := match it.foundingDate with
      | some fd => { d with year_founded := some (String.mk (fd.toList.take 4)) }
      | none => d
    let d2 := match it.ldName with
      | some n => { d1 with ngo_name := some n }
      | none => d1
    match it.areaServed with
    | some areas => { d2 with operational_areas := some (areas.filterMap ldAreaName) }
    | none => d2
  else d

/-- extract_from_json_ld: fold over the script blocks, skipping the
ones whose parse raised. -/
def extract_from_json_ld (soup : Soup) : LdData :=
  soup.jsonLdScripts.foldl (fun d sc =>
    match sc with
    | none => d
    | some items => items.foldl ldApplyItem d) {}

/-- extract_ngo_name: override selector first; on a hit return the
element text, otherwise fall through to the page title. -/
def extract_ngo_name (soup : Soup) (custom : Option String) : Option String :=
  let heur := match soup.titleString with
    | some t => some (stripStr t)
    | none => none
  match pyOpt custom with
  | some sel =>
    match soup.selectOne sel with
    | some e => some e.getTextStrip
    | none => heur
  | none => heur

/-- The heuristic part of v3 extract_year_founded: the two patterns in
order; on a match, group 1 if truthy else group 0 — group 1 being the
(19|20) century alternation. -/
def yearHeur (text : String) : Option String :=
  let pick := fun (caps : List (Nat × String)) =>
    match capGroupOpt caps 1 with
    | some g => if truthyS g then some g else some (capGroup caps 0)
    | none => some (capGroup caps 0)
  match reSearch patYear1 text with
  | some caps => pick caps
  | none =>
    match reSearch patYear2 text with
    | some caps => pick caps
    | none => none

/-- v3 extract_year_founded: override selector first (its element text
searched for \b(19|20)\d{2}\b, group 0 returned), falling through to
the page-text heuristic when the selector or its match fails. -/
def extract_year_founded (soup : Soup) (custom : Option String) : Option String :=
  match pyOpt custom with
  | some sel =>
    match soup.selectOne sel with
    | some e =>
      match reSearch patYearTok e.getText with
      | some caps => some (capGroup caps 0)
      | none => yearHeur soup.getText
    | none => yearHeur soup.getText
  | none => yearHeur soup.getText

/-- The keyword loop of v3 extract_fields_of_work: first keyword whose
located list has at least two items none of which mentions about. -/
def fowGo (soup : Soup) : List String → List String
  | [] => []
  | kw :: rest =>
    match soup.kwList kw with
    | some items =>
      if decide (items.length ≥ 2) && !(items.any (fun i => containsSub "about" (lowerStr i)))
      then items else fowGo soup rest
    | none => fowGo soup rest

/-- v3 extract_fields_of_work: an override returns the selected
elements' texts unconditionally; otherwise the keyword-list heuristic. -/
def extract_fields_of_work (soup : Soup) (custom : Option String) : List String :=
  match pyOpt custom with
  | some sel => (soup.selectAll sel).map (fun e => e.getTextStrip)
  | none => fowGo soup ["program", "initiative", "project", "focus", "work"]

/-- The Indian states and major cities gazetteer of v3. -/
def INDIAN_STATES : List String :=
  ["Delhi", "Mumbai", "Pune", "Bangalore", "Kolkata", "Chennai", "Hyderabad",
   "Ahmedabad", "Jaipur", "Lucknow", "Patna", "Bhopal", "Ranchi", "Guwahati",
   "Odisha", "Maharashtra", "Karnataka", "Tamil Nadu", "Gujarat", "Rajasthan",
   "Uttar Pradesh", "Bihar", "Jharkhand", "Assam", "Punjab", "Haryana",
   "Madhya Pradesh", "West Bengal", "Telangana", "Andhra Pradesh"]

/-- v3 extract_operational_areas: an override returns the selected
elements' texts; otherwise scan the page text for each gazetteer name
between word boundaries, case-insensitively. -/
def extract_operational_areas (soup : Soup) (custom : Option String) : List String :=
  match pyOpt custom with
  | some sel => (soup.selectAll sel).map (fun e => e.getTextStrip)
  | none =>
    INDIAN_STATES.filter (fun st =>
      (reSearch (RE.reSeq RE.wordB (RE.reSeq (litI st) RE.wordB)) soup.getText).isSome)

/-- The body of the phone-pattern loop, over a remaining pattern
list. -/
def phoneGo (text : String) : List RE → Option String
  | [] => none
  | p :: rest =>
    match reSearch p text with
    | some caps =>
      let phone := pyPhoneStrip (capGroup caps 0)
      if decide (phone.length ≥ 10) then some phone else phoneGo text rest
    | none => phoneGo text rest

/-- The phone-pattern loop of v3 extract_contact_info: first pattern
whose match, stripped of non-digit non-plus characters, keeps at
least 10 characters; a shorter strip falls through to the next
pattern. -/
def phoneFromPatterns (text : String) : Option String :=
  phoneGo text phonePatterns

/-- The email entry of v3 extract_contact_info: the first email
pattern match over the page text, if any. -/
def contactEmail (soup : Soup) : Option String :=
  (reSearch patEmail soup.getText).map (fun caps => capGroup caps 0)

/-- The phone entry of v3 extract_contact_info: the phone-pattern
loop, and when it stored nothing and a select element or a select
state text node is present, the sentinel value. -/
def contactPhone (soup : Soup) : Option String :=
  match phoneFromPatterns soup.getText with
  | some p => some p
  | none =>
    if soup.hasSelectElem
        || soup.textNodes.any (fun s => containsSub "select state" (lowerStr s))
    then some phoneSentinel else none

/-- v3 extract_contact_info.  The custom argument is accepted and
ignored, as in the source.  Email and phone are regex-mined from the
page text; an empty dictionary is returned as None. -/
def extract_contact_info (soup : Soup) (_custom : Option String) : Option Contact :=
  if (contactEmail soup).isSome || (contactPhone soup).isSome then
    some { email := contactEmail soup, phone := contactPhone soup }
  else none

/-- v3 extract_from_pdf: every network or parse failure yields the
empty dictionary (None here); on success the concatenated page texts
are searched for the pdf year pattern and group 1 returned. -/
def extract_from_pdf (pf : PdfFetch) : Option String :=
  match pf with
  | PdfFetch.exn => none
  | PdfFetch.status code doc =>
    if code != 200 then none
    else
      match doc with
      | PdfDoc.parseExn => none
      | PdfDoc.pages ts =>
        let text := ts.foldl (fun acc o => acc ++ o.getD "") ""
        (reSearch patPdfYear text).map (fun caps => capGroup caps 1)

/-- v3 find_subpages_and_pdfs: classify outbound links by keyword
against the lowered link text and href, resolve against the base url,
drop self links and fragment links, and deduplicate. -/
def find_subpages_and_pdfs (env : Env) (soup : Soup) (base : String) :
    List String × List String :=
  let step := fun (acc : List String × List String) (l : String × String) =>
    let href := l.1
    let text := lowerStr l.2
    let full := env.urljoin base href
    let subs :=
      if ["about", "history", "contact", "team", "state"].any
          (fun k => containsSub k text || containsSub k (lowerStr href)) then
        if full != base && !(full.toList.any (fun c => c == '#')) then acc.1 ++ [full]
        else acc.1
      else acc.1
    let pdfs :=
      if (lowerStr href).toList.reverse.take 4 == (".pdf").toList.reverse
          && ["report", "annual"].any (fun k => containsSub k text) then
        acc.2 ++ [full]
      else acc.2
    (subs, pdfs)
  let sp := soup.links.foldl step ([], [])
  (dedupL sp.1, dedupL sp.2)

/-- The record as initialised at the top of parse_ngo: every field
absent or empty except the url, contact_info the empty dictionary. -/
def initData (url : String) : Data :=
  { ngo_name := none, year_founded := none, fields_of_work := [],
    operational_areas := [], contact_info := some {}, website_url := url }

/-- data.update(json_data): each key present in the JSON-LD result
overwrites the corresponding record field. -/
def ldUpdate (d : Data) (ld : LdData) : Data :=
  let d1a := match ld.ngo_name with
    | some n => { d with ngo_name := some n }
    | none => d
  let d1b := match ld.year_founded with
    | some y => { d1a with year_founded := some y }
    | none => d1a
  match ld.operational_areas with
  | some a => { d1b with operational_areas := a }
  | none => d1b

/-- The five chained or-assignments of the seed-page pass: each
heuristic extractor runs only on a still-falsy field. -/
def seedHeur (soup : Soup) (custom : String → Option String) (d1 : Data) : Data :=
  let nm := if truthyOS d1.ngo_name then d1.ngo_name
            else extract_ngo_name soup (custom "ngo_name")
  let d2 := { d1 with ngo_name := nm }
  let yr := if truthyOS d2.year_founded then d2.year_founded
            else extract_year_founded soup (custom "year_founded")
  let d3 := { d2 with year_founded := yr }
  let fw := if d3.fields_of_work.isEmpty then
              extract_fields_of_work soup (custom "fields_of_work")
            else d3.fields_of_work
  let d4 := { d3 with fields_of_work := fw }
  let oa := if d4.operational_areas.isEmpty then
              extract_operational_areas soup (custom "operational_areas")
            else d4.operational_areas
  let d5 := { d4 with operational_areas := oa }
  let ci := if truthyC d5.contact_info then d5.contact_info
            else extract_contact_info soup (custom "contact_info")
  { d5 with contact_info := ci }

/-- The seed-page pass of parse_ngo: initial record, JSON-LD update,
then the heuristic or-assignments. -/
def seedData (soup : Soup) (custom : String → Option String) (url : String) : Data :=
  seedHeur soup custom (ldUpdate (initData url) (extract_from_json_ld soup))

/-- The year update of one subpage iteration of parse_ngo: the field
is re-extracted only while falsy. -/
def subYear (d : Data) (s : Soup) : Data :=
  if !truthyOS d.year_founded then { d with year_founded := extract_year_founded s none }
  else d

/-- The fields_of_work update of one subpage iteration. -/
def subFow (d : Data) (s : Soup) : Data :=
  if d.fields_of_work.isEmpty then { d with fields_of_work := extract_fields_of_work s none }
  else d

/-- The contact update of one subpage iteration, including the
AttributeError raised by data.contact_info.get when contact_info
is None. -/
def subContact (d : Data) (s : Soup) : Except Unit Data :=
  match d.contact_info with
  | none => Except.error ()
  | some c =>
    if !truthyOS c.phone then
      match extract_contact_info s none with
      | some nc => Except.ok { d with contact_info := some (updateC c nc) }
      | none => Except.ok d
    else Except.ok d

/-- One full subpage iteration. -/
def subStep (env : Env) (d : Data) (subUrl : String) : Except Unit Data :=
  match env.fetch subUrl with
  | none => Except.ok d
  | some s => subContact (subFow (subYear d s) s) s

/-- The subpage loop over the first discovered subpages. -/
def subLoop (env : Env) (d : Data) : List String → Except Unit Data
  | [] => Except.ok d
  | u :: rest =>
    match subStep env d u with
    | Except.error e => Except.error e
    | Except.ok d1 => subLoop env d1 rest

/-- One pdf iteration of parse_ngo: accept the extracted year only if
it is truthy and the field is still falsy. -/
def pdfStep (env : Env) (d : Data) (u : String) : Data :=
  let pd := extract_from_pdf (env.fetchPdf u)
  match pd with
  | some y =>
    if truthyS y && !truthyOS d.year_founded then { d with year_founded := some y } else d
  | none => d

/-- The pdf loop over the first discovered document. -/
def pdfLoop (env : Env) (us : List String) (d : Data) : Data :=
  us.foldl (pdfStep env) d

/-- parse_ngo after a successful seed fetch: seed pass, then up to two
subpages, then up to one pdf. -/
def afterFetch (env : Env) (url : String) (soup : Soup) : PRes :=
  let custom := env.customs (env.netloc url)
  let d0 := seedData soup custom url
  let sp := find_subpages_and_pdfs env soup url
  match subLoop env d0 (sp.1.take 2) with
  | Except.error _ => PRes.crashed
  | Except.ok d1 => PRes.record (pdfLoop env (sp.2.take 1) d1)

/-- v3 parse_ngo: None when the seed fetch fails, otherwise the
pipeline. -/
def parse_ngo (env : Env) (url : String) : PRes :=
  match env.fetch url with
  | none => PRes.noPage
  | some soup => afterFetch env url soup

namespace V1

/-- The v1 page model: full text, element text per selector, and the
parent texts located by the About Us / Our Story / History fallback
(one entry per about-like text node that has a div, section or p
parent, in document order). -/
structure Soup where
  getText : String
  selectOneText : String → Option String
  aboutParents : List String

/-- v1 year pattern 1 (re.I):
(?:founded|established|started)\s*(?:in|on)?\s*(\d{4}) -/
def patQ1 : RE :=
  RE.reSeq (RE.reAlt (litI "founded") (RE.reAlt (litI "established") (litI "started")))
    (RE.reSeq (RE.reStar false wspRE)
      (RE.reSeq (RE.reOpt (RE.reAlt (litI "in") (litI "on")))
        (RE.reSeq (RE.reStar false wspRE) (RE.grp 1 (repRE 4 digitRE)))))

/-- v1 year pattern 2 (re.I): year\s*(?:founded|established):\s*(\d{4}) -/
def patQ2 : RE :=
  RE.reSeq (litI "year")
    (RE.reSeq (RE.reStar false wspRE)
      (RE.reSeq (RE.reAlt (litI "founded") (litI "established"))
        (RE.reSeq (chC ':')
          (RE.reSeq (RE.reStar false wspRE) (RE.grp 1 (repRE 4 digitRE))))))

/-- v1 year pattern 3 (re.I): since\s*(\d{4}) -/
def patQ3 : RE :=
  RE.reSeq (litI "since")
    (RE.reSeq (RE.reStar false wspRE) (RE.grp 1 (repRE 4 digitRE)))

/-- Python int() on a digit string. -/
def toNatDigits (s : String) : Option Nat :=
  if !s.toList.isEmpty && s.toList.all Char.isDigit then
    some (s.toList.foldl (fun a c => a * 10 + (c.toNat - 48)) 0)
  else none

/-- The v1 pattern loop: on a match, the captured year is accepted
only inside [1900, current_year]; otherwise the next pattern is
tried. -/
def tryPats (cy : Nat) (text : String) : List RE → Option String
  | [] => none
  | p :: rest =>
    match reSearch p text with
    | some caps =>
      match toNatDigits (capGroup caps 1) with
      | some y => if 1900 ≤ y ∧ y ≤ cy then some (toString y) else tryPats cy text rest
      | none => tryPats cy text rest
    | none => tryPats cy text rest

/-- re.findall of \d{4}: non-overlapping four-digit runs, left to
right. -/
def findAll4 : List Char → List String
  | a :: b :: c :: d :: rest =>
    if a.isDigit && b.isDigit && c.isDigit && d.isDigit then
      String.mk [a, b, c, d] :: findAll4 rest
    else findAll4 (b :: c :: d :: rest)
  | _ => []

/-- First listed year within [1900, current_year]. -/
def scanYears (cy : Nat) : List String → Option String
  | [] => none
  | m :: rest =>
    match toNatDigits m with
    | some y => if 1900 ≤ y ∧ y ≤ cy then some (toString y) else scanYears cy rest
    | none => scanYears cy rest

/-- The About Us fallback: each about-section parent text is scanned
for four-digit runs, the first in-range year wins. -/
def aboutFB (cy : Nat) : List String → Option String
  | [] => none
  | parent :: rest =>
    match scanYears cy (findAll4 parent.toList) with
    | some y => some y
    | none => aboutFB cy rest

/-- v1 extract_year_founded: a configured selector confines the regex
text to the selected element (empty when it matches nothing), the
three patterns are tried with range validation, and the About Us
fallback always scans the full page. -/
def extract_year_founded (soup : Soup) (customSel : Option String) (cy : Nat) :
    Option String :=
  let text := match pyOpt customSel with
    | some sel => (soup.selectOneText sel).getD ""
    | none => soup.getText
  match tryPats cy text [patQ1, patQ2, patQ3] with
  | some y => some y
  | none => aboutFB cy soup.aboutParents

end V1

/-- A page with nothing on it: the base for the concrete fixtures. -/
def emptySoup : Soup :=
  { getText := "", titleString := none, selectOne := fun _ => none,
    selectAll := fun _ => [], links := [], jsonLdScripts := [],
    kwList := fun _ => none, hasSelectElem := false, textNodes := [] }

/-- An environment in which every fetch fails: the base for the
concrete fixtures.  urljoin is instantiated for absolute hrefs, on
which the url library returns the href unchanged; every fixture link
below is absolute. -/
def emptyEnv : Env :=
  { fetch := fun _ => none, fetchPdf := fun _ => PdfFetch.exn,
    urljoin := fun _ href => href, netloc := fun _ => "",
    customs := fun _ _ => none }

/-- Claim C1 fixture: a page whose text states a founding year. -/
def soupC1 : Soup := { emptySoup with getText := "Founded in 1998" }

/-- The same page for the v1 extractor. -/
def v1SoupC1 : V1.Soup :=
  { getText := "Founded in 1998", selectOneText := fun _ => none, aboutParents := [] }

/-- Claim C2 fixture seed page: an email and a subpage link. -/
def soupC2seed : Soup :=
  { emptySoup with getText := "Mail: a@x.com", links := [("http://o/a", "About")] }

/-- Claim C2 fixture subpage: a different email. -/
def soupC2a : Soup := { emptySoup with getText := "b@y.com" }

/-- Claim C2 environment. -/
def envC2 : Env :=
  { emptyEnv with fetch := fun u =>
      if u == "http://o/" then some soupC2seed
      else if u == "http://o/a" then some soupC2a
      else none }

/-- Claim C3 fixture: a recognised metadata item whose foundingDate is
the empty string. -/
def ldItemC3 : LdItem := { atType := some "Organization", foundingDate := some "" }

/-- Claim C3 fixture page: the empty foundingDate next to a heuristic
year in the page text. -/
def soupC3 : Soup :=
  { emptySoup with getText := "Founded in 1998", jsonLdScripts := [some [ldItemC3]] }

/-- Claim C3 environment. -/
def envC3 : Env :=
  { emptyEnv with fetch := fun u => if u == "http://o/" then some soupC3 else none }

/-- Claim C4 fixture: a page whose configured selector matches no
element while the page text carries a heuristic year. -/
def soupC4 : Soup := { emptySoup with getText := "founded in 1998" }

/-- Claim C5 fixture: the program keyword locates a two-item list with
one blank item. -/
def soupC5 : Soup :=
  { emptySoup with kwList := fun kw =>
      if kw == "program" then some ["Education", ""] else none }

/-- Claim C6 fixture seed page: an email of its own and two subpage
links. -/
def soupC6seed : Soup :=
  { emptySoup with
      getText := "Write a@x.com"
      links := [("http://o/a", "About"), ("http://o/b", "Contact")] }

/-- Claim C6 first subpage: supplies only an email. -/
def soupC6a : Soup := { emptySoup with getText := "e1@a.org" }

/-- Claim C6 second subpage: supplies only a phone. -/
def soupC6b : Soup := { emptySoup with getText := "+91 9876543210" }

/-- Claim C6 environment. -/
def envC6 : Env :=
  { emptyEnv with fetch := fun u =>
      if u == "http://o/" then some soupC6seed
      else if u == "http://o/a" then some soupC6a
      else if u == "http://o/b" then some soupC6b
      else none }

/-- Claim C7 fixture seed page: no field data at all, one subpage
link. -/
def soupC7 : Soup :=
  { emptySoup with getText := "Welcome", links := [("http://o/about", "About")] }

/-- Claim C7 environment: the subpage fetch succeeds and returns an
empty page. -/
def envC7 : Env :=
  { emptyEnv with fetch := fun u =>
      if u == "http://o/" then some soupC7
      else if u == "http://o/about" then some emptySoup
      else none }

/-- Claim C9 witness fixture: a select element and no phone text. -/
def soupW9 : Soup := { emptySoup with hasSelectElem := true }

/-- Claim C10 witness fixture: a page with an Indian phone number. -/
def soupW10 : Soup := { emptySoup with getText := "+91 9876543210" }

/-- Witness environment fetching one empty seed page. -/
def envW2 : Env :=
  { emptyEnv with fetch := fun u => if u == "u" then some emptySoup else none }

/-- The record produced for an empty seed page. -/
def rW : Data :=
  { ngo_name := none, year_founded := none, fields_of_work := [],
    operational_areas := [], contact_info := none, website_url := "u" }

/-- Claim C3 witness fixture: one recognised item with a real
foundingDate. -/
def itW3 : LdItem := { atType := some "NGO", foundingDate := some "1987-03-01" }

/-- Claim C3 witness page. -/
def soupW3 : Soup := { emptySoup with jsonLdScripts := [some [itW3]] }

/-- Claim C3 witness environment. -/
def envW3 : Env :=
  { emptyEnv with fetch := fun u => if u == "u" then some soupW3 else none }

/-- The record produced for the C3 witness page. -/
def rW3 : Data :=
  { ngo_name := none, year_founded := some "1987", fields_of_work := [],
    operational_areas := [], contact_info := none, website_url := "u" }

/-- Preservation relation between the record before and after the
subpage and document passes: name, areas and url never change; a
truthy year and a non-empty fields_of_work never change; a truthy
phone sub-key is never replaced. -/
def Pres (d d' : Data) : Prop :=
  d'.ngo_name = d.ngo_name ∧
  d'.operational_areas = d.operational_areas ∧
  d'.website_url = d.website_url ∧
  (truthyOS d.year_founded = true → d'.year_founded = d.year_founded) ∧
  (d.fields_of_work ≠ [] → d'.fields_of_work = d.fields_of_work) ∧
  (∀ c p, d.contact_info = some c → c.phone = some p → truthyS p = true →
    ∃ c', d'.contact_info = some c' ∧ c'.phone = some p)

/-- The failure outcomes of a document download: a raised exception, a
non-success status, or an unparseable document. -/
def PdfFailure : PdfFetch → Prop
  | PdfFetch.exn => True
  | PdfFetch.status code doc => code ≠ 200 ∨ doc = PdfDoc.parseExn

theorem pres_refl (d : Data) : Pres d d := by
  refine ⟨rfl, rfl, rfl, fun _ => rfl, fun _ => rfl, ?_⟩
  intro c p hc hp _
  exact ⟨c, hc, hp⟩

theorem pres_trans {d1 d2 d3 : Data} (h12 : Pres d1 d2) (h23 : Pres d2 d3) :
    Pres d1 d3 := by
  obtain ⟨n12, a12, u12, y12, f12, c12⟩ := h12
  obtain ⟨n23, a23, u23, y23, f23, c23⟩ := h23
  refine ⟨n23.trans n12, a23.trans a12, u23.trans u12, ?_, ?_, ?_⟩
  · intro hy
    have e := y12 hy
    have hy2 : truthyOS d2.year_founded = true := by rw [e]; exact hy
    rw [y23 hy2, e]
  · intro hf
    have e := f12 hf
    have hf2 : d2.fields_of_work ≠ [] := by rw [e]; exact hf
    rw [f23 hf2, e]
  · intro c p hc hp htp
    obtain ⟨c2, hc2, hp2⟩ := c12 c p hc hp htp
    exact c23 c2 p hc2 hp2 htp

theorem subYear_pres (d : Data) (s : Soup) : Pres d (subYear d s) := by
  unfold subYear
  cases hy : truthyOS d.year_founded with
  | true => simp only [hy, Bool.not_true, Bool.false_eq_true, if_false]; exact pres_refl d
  | false =>
    simp only [hy, Bool.not_false, if_true]
    refine ⟨rfl, rfl, rfl, ?_, fun _ => rfl, ?_⟩
    · intro hYr; rw [hy] at hYr; exact absurd hYr (by simp)
    · intro c p hc hp _; exact ⟨c, hc, hp⟩

theorem subFow_pres (d : Data) (s : Soup) : Pres d (subFow d s) := by
  unfold subFow
  cases hf : d.fields_of_work.isEmpty with
  | false => simp only [hf, Bool.false_eq_true, if_false]; exact pres_refl d
  | true =>
    simp only [hf, if_true]
    refine ⟨rfl, rfl, rfl, fun _ => rfl, ?_, ?_⟩
    · intro hne
      have : d.fields_of_work = [] := by
        cases hl : d.fields_of_work with
        | nil => rfl
        | cons a l => rw [hl] at hf; exact absurd hf (by simp)
      exact absurd this hne
    · intro c p hc hp _; exact ⟨c, hc, hp⟩

theorem subContact_pres {d d' : Data} (s : Soup) (h : subContact d s = Except.ok d') :
    Pres d d' := by
  unfold subContact at h
  cases hc : d.contact_info with
  | none => rw [hc] at h; exact Except.noConfusion h
  | some c =>
    rw [hc] at h
    cases hp : truthyOS c.phone with
    | true =>
      simp only [hp, Bool.not_true, Bool.false_eq_true, if_false] at h
      have e : d = d' := Except.ok.inj h
      subst e; exact pres_refl d
    | false =>
      simp only [hp, Bool.not_false, if_true] at h
      cases he : extract_contact_info s none with
      | none =>
        rw [he] at h
        have e : d = d' := Except.ok.inj h
        subst e; exact pres_refl d
      | some nc =>
        rw [he] at h
        have e : { d with contact_info := some (updateC c nc) } = d' := Except.ok.inj h
        subst e
        refine ⟨rfl, rfl, rfl, fun _ => rfl, fun _ => rfl, ?_⟩
        intro c0 p hc0 hp0 htp
        rw [hc] at hc0
        have ec : c = c0 := Option.some.inj hc0
        subst ec
        rw [hp0] at hp
        exact absurd hp (by rw [show truthyOS (some p) = truthyS p from rfl, htp]; simp)

theorem subStep_pres {env : Env} {d d' : Data} {u : String}
    (h : subStep env d u = Except.ok d') : Pres d d' := by
  unfold subStep at h
  cases hf : env.fetch u with
  | none =>
    rw [hf] at h
    have e : d = d' := Except.ok.inj h
    subst e; exact pres_refl d
  | some s =>
    rw [hf] at h
    exact pres_trans (pres_trans (subYear_pres d s) (subFow_pres (subYear d s) s))
      (subContact_pres s h)

theorem subLoop_pres (env : Env) (l : List String) :
    ∀ d d', subLoop env d l = Except.ok d' → Pres d d' := by
  induction l with
  | nil =>
    intro d d' h
    have e : d = d' := Except.ok.inj h
    subst e; exact pres_refl d
  | cons u rest ih =>
    intro d d' h
    unfold subLoop at h
    cases hs : subStep env d u with
    | error e => rw [hs] at h; exact Except.noConfusion h
    | ok d1 => rw [hs] at h; exact pres_trans (subStep_pres hs) (ih d1 d' h)

theorem pdfStep_pres (env : Env) (d : Data) (u : String) : Pres d (pdfStep env d u) := by
  unfold pdfStep
  cases he : extract_from_pdf (env.fetchPdf u) with
  | none => exact pres_refl d
  | some y =>
    cases hcond : (truthyS y && !truthyOS d.year_founded) with
    | false => simp only [hcond, Bool.false_eq_true, if_false]; exact pres_refl d
    | true =>
      simp only [hcond, if_true]
      refine ⟨rfl, rfl, rfl, ?_, fun _ => rfl, ?_⟩
      · intro hy
        have h2 := (Bool.and_eq_true _ _).mp hcond
        rw [hy] at h2
        exact absurd h2.2 (by simp)
      · intro c p hc hp _; exact ⟨c, hc, hp⟩

theorem pdfLoop_pres (env : Env) (l : List String) :
    ∀ d, Pres d (pdfLoop env l d) := by
  induction l with
  | nil => intro d; exact pres_refl d
  | cons u rest ih =>
    intro d
    have e : pdfLoop env (u :: rest) d = pdfLoop env rest (pdfStep env d u) := rfl
    rw [e]
    exact pres_trans (pdfStep_pres env d u) (ih (pdfStep env d u))

theorem afterFetch_pres {env : Env} {url : String} {soup : Soup} {r : Data}
    (h : afterFetch env url soup = PRes.record r) :
    Pres (seedData soup (env.customs (env.netloc url)) url) r := by
  simp only [afterFetch] at h
  cases hs : subLoop env (seedData soup (env.customs (env.netloc url)) url)
      ((find_subpages_and_pdfs env soup url).1.take 2) with
  | error e => rw [hs] at h; exact PRes.noConfusion h
  | ok d1 =>
    rw [hs] at h
    have e : pdfLoop env ((find_subpages_and_pdfs env soup url).2.take 1) d1 = r :=
      PRes.record.inj h
    rw [← e]
    exact pres_trans (subLoop_pres env _ _ _ hs) (pdfLoop_pres env _ d1)

theorem pyOpt_truthy {s : String} (h : truthyS s = true) : pyOpt (some s) = some s := by
  have hb : (s == "") = false := by
    cases hq : s == "" with
    | false => rfl
    | true => rw [truthyS, hq] at h; exact absurd h (by simp)
  simp [pyOpt, hb]

theorem fowGo_guard (soup : Soup) (kws : List String) :
    fowGo soup kws = [] ∨
      (2 ≤ (fowGo soup kws).length ∧
        (fowGo soup kws).any (fun i => containsSub "about" (lowerStr i)) = false) := by
  induction kws with
  | nil => left; rfl
  | cons kw rest ih =>
    cases hk : soup.kwList kw with
    | none => simp only [fowGo, hk]; exact ih
    | some items =>
      simp only [fowGo, hk]
      cases hg : (decide (items.length ≥ 2) &&
          !items.any (fun i => containsSub "about" (lowerStr i))) with
      | false => simp only [hg, Bool.false_eq_true, if_false]; exact ih
      | true =>
        simp only [hg, if_true]
        right
        have h2 := (Bool.and_eq_true _ _).mp hg
        exact ⟨of_decide_eq_true h2.1, by
          have := h2.2
          cases ha : items.any (fun i => containsSub "about" (lowerStr i)) with
          | false => rfl
          | true => rw [ha] at this; exact absurd this (by simp)⟩

theorem phoneGo_shape (ps : List RE) :
    ∀ text p, phoneGo text ps = some p →
      10 ≤ p.length ∧ ∀ ch ∈ p.toList, (ch.isDigit || ch == '+') = true := by
  induction ps with
  | nil => intro text p h; exact Option.noConfusion h
  | cons q rest ih =>
    intro text p h
    simp only [phoneGo] at h
    cases hs : reSearch q text with
    | none => rw [hs] at h; exact ih text p h
    | some caps =>
      rw [hs] at h
      simp only at h
      cases hd : decide ((pyPhoneStrip (capGroup caps 0)).length ≥ 10) with
      | false =>
        simp only [hd, Bool.false_eq_true, if_false] at h
        exact ih text p h
      | true =>
        simp only [hd, if_true, Option.some.injEq] at h
        subst h
        refine ⟨of_decide_eq_true hd, ?_⟩
        intro ch hch
        have e : (pyPhoneStrip (capGroup caps 0)).toList =
            (capGroup caps 0).toList.filter (fun c => c.isDigit || c == '+') := rfl
        rw [e] at hch
        exact (List.mem_filter.mp hch).2

theorem ldApplyItem_year {d : LdData} {it : LdItem} {fd : String}
    (hty : it.atType = some "Organization" ∨ it.atType = some "NGO")
    (hfd : it.foundingDate = some fd) :
    (ldApplyItem d it).year_founded = some (String.mk (fd.toList.take 4)) := by
  have hcond : (it.atType == some "Organization" || it.atType == some "NGO") = true := by
    cases hty with
    | inl h => rw [h]; rfl
    | inr h => rw [h]; rfl
  unfold ldApplyItem
  rw [hcond]
  simp only [if_true, hfd]
  cases hn : it.ldName with
  | none => cases ha : it.areaServed with
    | none => rfl
    | some a => rfl
  | some n => cases ha : it.areaServed with
    | none => rfl
    | some a => rfl

theorem ldSingle_year {soup : Soup} {it : LdItem} {fd : String}
    (hs : soup.jsonLdScripts = [some [it]])
    (hty : it.atType = some "Organization" ∨ it.atType = some "NGO")
    (hfd : it.foundingDate = some fd) :
    (extract_from_json_ld soup).year_founded = some (String.mk (fd.toList.take 4)) := by
  unfold extract_from_json_ld
  rw [hs]
  simp only [List.foldl]
  exact ldApplyItem_year hty hfd

theorem ldUpdate_year {d : Data} {ld : LdData} {y : String}
    (h : ld.year_founded = some y) : (ldUpdate d ld).year_founded = some y := by
  unfold ldUpdate
  rw [h]
  cases hn : ld.ngo_name with
  | none => cases ha : ld.operational_areas with
    | none => rfl
    | some a => rfl
  | some n => cases ha : ld.operational_areas with
    | none => rfl
    | some a => rfl

theorem seedHeur_year {soup : Soup} {custom : String → Option String} {d : Data}
    {y : String} (hd : d.year_founded = some y) (hy : truthyS y = true) :
    (seedHeur soup custom d).year_founded = some y := by
  unfold seedHeur
  simp only [hd]
  have ht : truthyOS (some y) = true := hy
  simp only [ht, if_true]

theorem seedData_year {soup : Soup} {custom : String → Option String} {url : String}
    {y : String} (hld : (extract_from_json_ld soup).year_founded = some y)
    (hy : truthyS y = true) : (seedData soup custom url).year_founded = some y := by
  unfold seedData
  exact seedHeur_year (ldUpdate_year hld) hy

theorem contactPhone_shape (soup : Soup) (p : String) (h : contactPhone soup = some p)
    (hs : p ≠ phoneSentinel) :
    10 ≤ p.length ∧ ∀ ch ∈ p.toList, (ch.isDigit || ch == '+') = true := by
  unfold contactPhone at h
  cases hp : phoneFromPatterns soup.getText with
  | some q =>
    rw [hp] at h
    simp only [Option.some.injEq] at h
    subst h
    exact phoneGo_shape phonePatterns soup.getText q hp
  | none =>
    rw [hp] at h
    simp only at h
    split at h
    · exact absurd (Option.some.inj h).symm hs
    · exact Option.noConfusion h

/-- Claim C1 is right about the intent but wrong about this code: on a
page whose text reads Founded in 1998, the v3 heuristic returns the
two-character century prefix 19 (the pattern's capture group spans
only the (19|20) alternation), not a four-digit year inside
[1900, current_year]; the v1 extractor on the same page returns 1998
with range validation, which is what the specification describes. -/
theorem c1_year_heuristic_returns_century_prefix :
    extract_year_founded soupC1 none = some "19" ∧
    ("19" : String).length ≠ 4 ∧
    V1.extract_year_founded v1SoupC1 none 2026 = some "1998" :=
  ⟨by decide, by decide, by decide⟩

/-- Counterexample to claim C2 as stated: on the C2 fixture the seed
pass resolves the email sub-key to a@x.com, yet the subpage pass —
which runs whenever the phone sub-key is still absent and merges with
dict.update — replaces it with the subpage's b@y.com. -/
theorem c2_present_email_subkey_replaced :
    (seedData soupC2seed (fun _ => none) "http://o/").contact_info =
        some { email := some "a@x.com", phone := none } ∧
    parse_ngo envC2 "http://o/" = PRes.record
        { ngo_name := none, year_founded := none, fields_of_work := [],
          operational_areas := [],
          contact_info := some { email := some "b@y.com", phone := none },
          website_url := "http://o/" } ∧
    ("b@y.com" : String) ≠ "a@x.com" :=
  ⟨by decide, by decide, by decide⟩

/-- Claim C2 as amended: for every completed run, the name, areas and
url resolved by the seed pass are never changed by later passes, a
truthy year and a non-empty fields_of_work are never changed, and a
phone sub-key once present is never replaced; the email sub-key,
however, may be replaced by a later subpage while the phone sub-key
is still unresolved (see the counterexample). -/
theorem c2_seed_resolution_preserved (env : Env) (url : String) (soup : Soup)
    (d r : Data) (hf : env.fetch url = some soup)
    (hd : seedData soup (env.customs (env.netloc url)) url = d)
    (hr : parse_ngo env url = PRes.record r) : Pres d r := by
  have h2 : afterFetch env url soup = PRes.record r := by
    unfold parse_ngo at hr
    rw [hf] at hr
    exact hr
  subst hd
  exact afterFetch_pres h2

/-- Witness for the amended claim C2 at a concrete empty-page run. -/
theorem c2_seed_resolution_preserved_witness :
    parse_ngo envW2 "u" = PRes.record rW ∧ Pres rW rW :=
  ⟨by decide,
   c2_seed_resolution_preserved envW2 "u" emptySoup rW rW rfl (by decide) (by decide)⟩

/-- Counterexample to claim C3 as stated: a recognised metadata block
may carry an empty foundingDate, whose four-character prefix is the
empty string; the empty string is falsy, so the seed heuristic
overwrites it — here with the century prefix 19 — and the resolved
year does not equal the prefix of the block's foundingDate. -/
theorem c3_empty_founding_date_overwritten :
    ldItemC3.foundingDate = some "" ∧
    parse_ngo envC3 "http://o/" = PRes.record
        { ngo_name := none, year_founded := some "19", fields_of_work := [],
          operational_areas := [], contact_info := none, website_url := "http://o/" } ∧
    some "19" ≠ some (String.mk ("".toList.take 4)) :=
  ⟨rfl, by decide, by decide⟩

/-- Claim C3 as amended: when the page carries one recognised
metadata block containing a foundingDate whose four-character prefix
is non-empty, every completed run resolves year_founded to that
prefix and no later heuristic pass replaces it. -/
theorem c3_founding_date_prefix_resolved (env : Env) (url : String) (soup : Soup)
    (it : LdItem) (fd : String) (r : Data)
    (hf : env.fetch url = some soup)
    (hs : soup.jsonLdScripts = [some [it]])
    (hty : it.atType = some "Organization" ∨ it.atType = some "NGO")
    (hfd : it.foundingDate = some fd)
    (hne : truthyS (String.mk (fd.toList.take 4)) = true)
    (hr : parse_ngo env url = PRes.record r) :
    r.year_founded = some (String.mk (fd.toList.take 4)) := by
  have hld := ldSingle_year hs hty hfd
  have hseed : (seedData soup (env.customs (env.netloc url)) url).year_founded =
      some (String.mk (fd.toList.take 4)) := seedData_year hld hne
  have h2 : afterFetch env url soup = PRes.record r := by
    unfold parse_ngo at hr
    rw [hf] at hr
    exact hr
  have hp := afterFetch_pres h2
  have hy : truthyOS (seedData soup (env.customs (env.netloc url)) url).year_founded
      = true := by rw [hseed]; exact hne
  have e := hp.2.2.2.1 hy
  rw [e, hseed]

/-- Witness for the amended claim C3 at a concrete one-block page. -/
theorem c3_founding_date_prefix_resolved_witness :
    parse_ngo envW3 "u" = PRes.record rW3 ∧
    rW3.year_founded = some (String.mk ("1987-03-01".toList.take 4)) :=
  ⟨by decide,
   c3_founding_date_prefix_resolved envW3 "u" soupW3 itW3 "1987-03-01" rW3 rfl rfl
     (Or.inr rfl) rfl (by decide) (by decide)⟩

/-- Counterexample to claim C4 as stated: with an override selector
configured for year_founded that matches no element, the v3 extractor
does not return the absent value — it falls through to the page
heuristics and returns a value. -/
theorem c4_failed_override_falls_back :
    truthyS "#est" = true ∧
    soupC4.selectOne "#est" = none ∧
    extract_year_founded soupC4 (some "#est") = some "19" ∧
    some "19" ≠ (none : Option String) :=
  ⟨by decide, rfl, by decide, by decide⟩

/-- Claim C4 as amended: only the fields_of_work and
operational_areas extractors short-circuit on a configured override
(returning exactly the selected elements' texts, with no heuristic
fallback even when nothing matches); the year and name extractors
fall back to the page heuristics when the override selector matches
no element; and the contact extractor ignores its override entirely. -/
theorem c4_override_semantics (soup : Soup) (sel : String) (h : truthyS sel = true) :
    extract_fields_of_work soup (some sel) =
        (soup.selectAll sel).map (fun e => e.getTextStrip) ∧
    extract_operational_areas soup (some sel) =
        (soup.selectAll sel).map (fun e => e.getTextStrip) ∧
    (soup.selectOne sel = none →
      extract_year_founded soup (some sel) = extract_year_founded soup none ∧
      extract_ngo_name soup (some sel) = extract_ngo_name soup none) ∧
    (∀ e, soup.selectOne sel = some e → reSearch patYearTok e.getText = none →
      extract_year_founded soup (some sel) = extract_year_founded soup none) ∧
    (∀ c : Option String, extract_contact_info soup c = extract_contact_info soup none) := by
  have hp := pyOpt_truthy h
  refine ⟨?_, ?_, ?_, ?_, fun c => rfl⟩
  · simp only [extract_fields_of_work, hp]
  · simp only [extract_operational_areas, hp]
  · intro hn
    constructor
    · simp only [extract_year_founded, hp, hn, show pyOpt none = none from rfl]
    · simp only [extract_ngo_name, hp, hn, show pyOpt none = none from rfl]
  · intro e he hm
    simp only [extract_year_founded, hp, he, hm, show pyOpt none = none from rfl]

/-- Witness for the amended claim C4 at a concrete page and selector. -/
theorem c4_override_semantics_witness :
    truthyS "x" = true ∧
    (extract_fields_of_work emptySoup (some "x") =
        (emptySoup.selectAll "x").map (fun e => e.getTextStrip) ∧
      extract_operational_areas emptySoup (some "x") =
        (emptySoup.selectAll "x").map (fun e => e.getTextStrip) ∧
      (emptySoup.selectOne "x" = none →
        extract_year_founded emptySoup (some "x") = extract_year_founded emptySoup none ∧
        extract_ngo_name emptySoup (some "x") = extract_ngo_name emptySoup none) ∧
      (∀ e, emptySoup.selectOne "x" = some e → reSearch patYearTok e.getText = none →
        extract_year_founded emptySoup (some "x") = extract_year_founded emptySoup none) ∧
      (∀ c : Option String,
        extract_contact_info emptySoup c = extract_contact_info emptySoup none)) :=
  ⟨by decide, c4_override_semantics emptySoup "x" (by decide)⟩

/-- Counterexample to claim C5 as stated: the v3 guard counts blank
items, so the list heuristic can return a two-item list with a single
non-empty item, which the claim forbids. -/
theorem c5_blank_item_counted :
    extract_fields_of_work soupC5 none = ["Education", ""] ∧
    ((extract_fields_of_work soupC5 none).filter (fun i => truthyS i)).length = 1 :=
  ⟨by decide, by decide⟩

/-- Claim C5 as amended: a fields_of_work result produced by the list
heuristic is either empty or has at least two items — blank items
included in the count — none of which mentions about; in particular a
located list yielding a single item is never returned. -/
theorem c5_list_heuristic_guard (soup : Soup) (custom : Option String)
    (h : pyOpt custom = none) :
    extract_fields_of_work soup custom = [] ∨
      (2 ≤ (extract_fields_of_work soup custom).length ∧
        (extract_fields_of_work soup custom).any
          (fun i => containsSub "about" (lowerStr i)) = false) := by
  have e : extract_fields_of_work soup custom =
      fowGo soup ["program", "initiative", "project", "focus", "work"] := by
    unfold extract_fields_of_work
    rw [h]
  rw [e]
  exact fowGo_guard soup _

/-- Witness for the amended claim C5 at a concrete page. -/
theorem c5_list_heuristic_guard_witness :
    pyOpt none = none ∧
    (extract_fields_of_work emptySoup none = [] ∨
      (2 ≤ (extract_fields_of_work emptySoup none).length ∧
        (extract_fields_of_work emptySoup none).any
          (fun i => containsSub "about" (lowerStr i)) = false)) :=
  ⟨rfl, c5_list_heuristic_guard emptySoup none rfl⟩

/-- Claim C6: a concrete run in which the first discovered subpage
supplies only the contact email and the second only the contact
phone; the final record carries the first subpage's email and the
second subpage's phone. -/
theorem c6_subpage_contact_merge :
    extract_contact_info soupC6a none = some { email := some "e1@a.org", phone := none } ∧
    extract_contact_info soupC6b none =
        some { email := none, phone := some "+919876543210" } ∧
    (find_subpages_and_pdfs envC6 soupC6seed "http://o/").1 =
        ["http://o/a", "http://o/b"] ∧
    parse_ngo envC6 "http://o/" = PRes.record
        { ngo_name := none, year_founded := none, fields_of_work := [],
          operational_areas := [],
          contact_info := some { email := some "e1@a.org", phone := some "+919876543210" },
          website_url := "http://o/" } :=
  ⟨by decide, by decide, by decide, by decide⟩

/-- Claim C7 is right about the intent but wrong about this code: on
the C7 fixture the seed page fetches, carries no data for any field
(the seed pass yields the all-absent record shown), yet the run does
not return that record — the subpage pass calls .get on the None
contact_info and raises AttributeError. -/
theorem c7_no_data_run_crashes :
    seedData soupC7 (fun _ => none) "http://o/" =
      { ngo_name := none, year_founded := none, fields_of_work := [],
        operational_areas := [], contact_info := none, website_url := "http://o/" } ∧
    parse_ngo envC7 "http://o/" = PRes.crashed :=
  ⟨by decide, by decide⟩

/-- Claim C8: every failing document download — a raised network
exception, a non-success status, or an unparseable document — makes
the document extractor return the empty result, and the document pass
of the pipeline leaves the record unchanged. -/
theorem c8_pdf_failure_is_empty (env : Env) (d : Data) (u : String)
    (h : PdfFailure (env.fetchPdf u)) :
    extract_from_pdf (env.fetchPdf u) = none ∧ pdfStep env d u = d := by
  have he : extract_from_pdf (env.fetchPdf u) = none := by
    cases hp : env.fetchPdf u with
    | exn => rfl
    | status code doc =>
      rw [hp] at h
      unfold PdfFailure at h
      cases h with
      | inl hcode =>
        have hb : (code != 200) = true := bne_iff_ne.mpr hcode
        simp only [extract_from_pdf, hb, if_true]
      | inr hdoc =>
        subst hdoc
        cases hb : (code != 200) with
        | true => simp [extract_from_pdf, hb]
        | false => simp [extract_from_pdf, hb]
  refine ⟨he, ?_⟩
  unfold pdfStep
  rw [he]

/-- Witness for claim C8 at a concrete failing download. -/
theorem c8_pdf_failure_is_empty_witness :
    PdfFailure (emptyEnv.fetchPdf "p") ∧
    (extract_from_pdf (emptyEnv.fetchPdf "p") = none ∧ pdfStep emptyEnv rW "p" = rW) :=
  ⟨trivial, c8_pdf_failure_is_empty emptyEnv rW "p" trivial⟩

/-- Claim C9: when the phone-pattern loop stored nothing but the page
has a select element or a select state text node, the contact
extractor returns a dictionary whose phone sub-key is the explicit
sentinel string — present, hence distinct from an absent phone key. -/
theorem c9_form_control_sentinel (soup : Soup) (c : Option String)
    (h1 : phoneFromPatterns soup.getText = none)
    (h2 : (soup.hasSelectElem
        || soup.textNodes.any (fun s => containsSub "select state" (lowerStr s))) = true) :
    ∃ ct, extract_contact_info soup c = some ct ∧ ct.phone = some phoneSentinel := by
  have hph : contactPhone soup = some phoneSentinel := by
    unfold contactPhone
    rw [h1]
    simp only [h2, if_true]
  refine ⟨{ email := contactEmail soup, phone := some phoneSentinel }, ?_, rfl⟩
  unfold extract_contact_info
  rw [hph]
  simp

/-- Witness for claim C9 at a concrete page with a select element. -/
theorem c9_form_control_sentinel_witness :
    phoneFromPatterns soupW9.getText = none ∧
    (∃ ct, extract_contact_info soupW9 none = some ct ∧ ct.phone = some phoneSentinel) :=
  ⟨by decide, c9_form_control_sentinel soupW9 none (by decide) (by decide)⟩

/-- Claim C10: the contact extractor never returns an empty
dictionary, and every phone value other than the sentinel consists
only of digits and plus characters and is at least ten characters
long. -/
theorem c10_contact_shape (soup : Soup) (c : Option String) :
    extract_contact_info soup c ≠ some { email := none, phone := none } ∧
    (∀ ct p, extract_contact_info soup c = some ct → ct.phone = some p →
      p ≠ phoneSentinel →
      10 ≤ p.length ∧ ∀ ch ∈ p.toList, (ch.isDigit || ch == '+') = true) := by
  constructor
  · intro hbad
    unfold extract_contact_info at hbad
    split at hbad
    · next hcond =>
        have h1 : contactEmail soup = none ∧ contactPhone soup = none := by
          have := Option.some.inj hbad
          exact ⟨congrArg Contact.email this, congrArg Contact.phone this⟩
        rw [h1.1, h1.2] at hcond
        simp at hcond
    · exact Option.noConfusion hbad
  · intro ct p hct hp hs
    unfold extract_contact_info at hct
    split at hct
    · next hcond =>
        have e : ct = { email := contactEmail soup, phone := contactPhone soup } :=
          (Option.some.inj hct).symm
        subst e
        have hp2 : contactPhone soup = some p := hp
        exact contactPhone_shape soup p hp2 hs
    · exact Option.noConfusion hct

/-- Witness for claim C10 at a concrete page with a phone number. -/
theorem c10_contact_shape_witness :
    extract_contact_info soupW10 none =
        some { email := none, phone := some "+919876543210" } ∧
    (10 ≤ ("+919876543210" : String).length ∧
      ∀ ch ∈ ("+919876543210" : String).toList, (ch.isDigit || ch == '+') = true) :=
  ⟨by decide,
   (c10_contact_shape soupW10 none).2 { email := none, phone := some "+919876543210" }
     "+919876543210" (by decide) rfl (by decide)⟩
